import Mathlib

/-!
Verification development for the xxhash-c crate (`src/lib.rs`).

The crate itself is a thin safe binding: every hash computation is delegated to
the C xxHash library (the `xxhash_c_sys` crate), whose sources are not part of
this repository.  Following the specification — which requires the constants,
rotation amounts and mixing schedule to match the published xxHash reference
algorithm bit-for-bit — the XXH32/XXH64 cores below are modelled directly from
that published reference algorithm, and the XXH3 streaming machine is modelled
from the specification's description of the streaming state (accumulator lanes,
a pending tail strictly shorter than one stripe, a running total length, and
the active customization secret), parameterized over the mixing core.

Conventions of the embedding:
* byte sequences are `List Nat` (each element one byte value);
* `w`-bit machine integers are `Nat` reduced `% 2 ^ w` wherever the C code
  performs a wrapping operation;
* fallible C entry points return their `XXH_errorcode` explicitly;
* `MaybeUninit` states of the binding are `Option` states (`none` = memory
  that was never initialized by a reset).
-/

namespace Xxh

/-! ## Machine arithmetic -/

def M32 : Nat := 2 ^ 32

def M64 : Nat := 2 ^ 64

/-- 32-bit rotate left, as performed by the reference `XXH_rotl32`. -/
def rotl32 (x r : Nat) : Nat := ((x <<< r) ||| (x >>> (32 - r))) % M32

/-- 64-bit rotate left, as performed by the reference `XXH_rotl64`. -/
def rotl64 (x r : Nat) : Nat := ((x <<< r) ||| (x >>> (64 - r))) % M64

/-- Little-endian value of a byte list (`XXH_readLE32` / `XXH_readLE64` read
the appropriate prefix). -/
def leVal (bytes : List Nat) : Nat := bytes.foldr (fun b acc => b + 256 * acc) 0

/-! ## Greedy stripe folding

Both streaming states consume their pending buffer and input greedily: whenever
at least one full stripe of `B` bytes is available it is folded into the
accumulator, and only a sub-stripe remainder stays pending.  `foldChunksF` is
a fuel-indexed structural version (so that concrete instances evaluate by
kernel reduction); `foldChunks` instantiates the fuel with the length of the
data, which is always enough. -/

def foldChunksF (fuel : Nat) (B : Nat) (f : α → List Nat → α) (a : α)
    (data : List Nat) : α × List Nat :=
  match fuel with
  | 0 => (a, data)
  | fuel + 1 =>
    if 0 < B ∧ B ≤ data.length then
      foldChunksF fuel B f (f a (data.take B)) (data.drop B)
    else
      (a, data)

def foldChunks (B : Nat) (f : α → List Nat → α) (a : α)
    (data : List Nat) : α × List Nat :=
  foldChunksF data.length B f a data

theorem foldChunksF_congr (B : Nat) (f : α → List Nat → α) :
    ∀ (fuel₁ fuel₂ : Nat) (a : α) (data : List Nat),
      data.length ≤ fuel₁ → data.length ≤ fuel₂ →
      foldChunksF fuel₁ B f a data = foldChunksF fuel₂ B f a data := by
  intro fuel₁
  induction fuel₁ with
  | zero =>
    intro fuel₂ a data h₁ h₂
    have hdata : data = [] := List.eq_nil_of_length_eq_zero (Nat.le_zero.mp h₁)
    subst hdata
    cases fuel₂ with
    | zero => rfl
    | succ fuel₂ =>
      simp only [foldChunksF, List.length_nil]
      rw [if_neg]
      rintro ⟨hB, hB0⟩
      omega
  | succ fuel₁ ih =>
    intro fuel₂ a data h₁ h₂
    cases fuel₂ with
    | zero =>
      have hdata : data = [] := List.eq_nil_of_length_eq_zero (Nat.le_zero.mp h₂)
      subst hdata
      simp only [foldChunksF, List.length_nil]
      rw [if_neg]
      rintro ⟨hB, hB0⟩
      omega
    | succ fuel₂ =>
      simp only [foldChunksF]
      by_cases hc : 0 < B ∧ B ≤ data.length
      · rw [if_pos hc, if_pos hc]
        exact ih fuel₂ (f a (data.take B)) (data.drop B)
          (by simp only [List.length_drop]; omega)
          (by simp only [List.length_drop]; omega)
      · rw [if_neg hc, if_neg hc]

/-- Unfolding equation for `foldChunks`, phrased without the fuel. -/
theorem foldChunks_eq (B : Nat) (f : α → List Nat → α) (a : α)
    (data : List Nat) :
    foldChunks B f a data =
      if 0 < B ∧ B ≤ data.length then
        foldChunks B f (f a (data.take B)) (data.drop B)
      else
        (a, data) := by
  unfold foldChunks
  by_cases hc : 0 < B ∧ B ≤ data.length
  · rw [if_pos hc]
    obtain ⟨n, hn⟩ : ∃ n, data.length = n + 1 := ⟨data.length - 1, by omega⟩
    rw [hn]
    simp only [foldChunksF]
    rw [if_pos hc]
    exact foldChunksF_congr B f n (data.drop B).length (f a (data.take B))
      (data.drop B) (by simp only [List.length_drop]; omega) le_rfl
  · rw [if_neg hc]
    cases hl : data.length with
    | zero => rfl
    | succ n =>
      simp only [foldChunksF]
      rw [if_neg (hl ▸ hc)]

theorem foldChunks_of_lt (B : Nat) (f : α → List Nat → α) (a : α)
    (data : List Nat) (h : data.length < B) :
    foldChunks B f a data = (a, data) := by
  rw [foldChunks_eq]
  rw [if_neg]
  rintro ⟨hB, hlen⟩
  omega

theorem foldChunks_nil (B : Nat) (f : α → List Nat → α) (a : α) :
    foldChunks B f a [] = (a, []) := by
  rw [foldChunks_eq]
  rw [if_neg]
  rintro ⟨hB, hlen⟩
  simp at hlen
  omega

/-- Greedy stripe folding does not depend on how the data is split: folding
`x ++ y` is folding `x`, then folding the remainder of `x` followed by `y`. -/
theorem foldChunks_append_aux (B : Nat) (f : α → List Nat → α) :
    ∀ (n : Nat) (x : List Nat), x.length ≤ n → ∀ (a : α) (y : List Nat),
      foldChunks B f a (x ++ y) =
        foldChunks B f (foldChunks B f a x).1 ((foldChunks B f a x).2 ++ y) := by
  intro n
  induction n with
  | zero =>
    intro x hx a y
    have hxnil : x = [] := List.eq_nil_of_length_eq_zero (Nat.le_zero.mp hx)
    subst hxnil
    rw [foldChunks_nil]
  | succ n ih =>
    intro x hx a y
    by_cases hc : 0 < B ∧ B ≤ x.length
    · have hxy : 0 < B ∧ B ≤ (x ++ y).length := by
        constructor
        · exact hc.1
        · simp only [List.length_append]
          omega
      rw [foldChunks_eq B f a (x ++ y), if_pos hxy]
      rw [List.take_append_of_le_length hc.2, List.drop_append_of_le_length hc.2]
      rw [ih (x.drop B) (by simp only [List.length_drop]; omega) (f a (x.take B)) y]
      rw [foldChunks_eq B f a x, if_pos hc]
    · rw [foldChunks_eq B f a x, if_neg hc]

theorem foldChunks_append (B : Nat) (f : α → List Nat → α) (a : α)
    (x y : List Nat) :
    foldChunks B f a (x ++ y) =
      foldChunks B f (foldChunks B f a x).1 ((foldChunks B f a x).2 ++ y) :=
  foldChunks_append_aux B f x.length x le_rfl a y

/-- The pending remainder left by greedy folding is strictly shorter than one
stripe (the spec's invariant on the pending tail). -/
theorem foldChunks_rem_lt (B : Nat) (f : α → List Nat → α) (hB : 0 < B) :
    ∀ (n : Nat) (data : List Nat), data.length ≤ n → ∀ (a : α),
      (foldChunks B f a data).2.length < B := by
  intro n
  induction n with
  | zero =>
    intro data hd a
    have hdn : data = [] := List.eq_nil_of_length_eq_zero (Nat.le_zero.mp hd)
    subst hdn
    rw [foldChunks_nil]
    exact hB
  | succ n ih =>
    intro data hd a
    rw [foldChunks_eq]
    by_cases hc : 0 < B ∧ B ≤ data.length
    · rw [if_pos hc]
      exact ih (data.drop B) (by simp only [List.length_drop]; omega) _
    · rw [if_neg hc]
      simp only
      omega

/-! ## XXH64 core

Modelled from the spec: `src/lib.rs` delegates `xxh64`, `XXH64_reset`,
`XXH64_update` and `XXH64_digest` to the external C xxHash library, which is
not part of this repository; the spec requires those routines to match the
published xxHash reference algorithm bit-for-bit, so the definitions below are
that reference algorithm (primes, rotation amounts, stripe and finalization
schedule of `XXH64`). -/

def PRIME64_1 : Nat := 0x9E3779B185EBCA87

def PRIME64_2 : Nat := 0xC2B2AE3D27D4EB4F

def PRIME64_3 : Nat := 0x165667B19E3779F9

def PRIME64_4 : Nat := 0x85EBCA77C2B2AE63

def PRIME64_5 : Nat := 0x27D4EB2F165667C5

/-- The four accumulator lanes of the 64-bit (and 32-bit) algorithm. -/
structure Lanes4 where
  v1 : Nat
  v2 : Nat
  v3 : Nat
  v4 : Nat
deriving DecidableEq

/-- Reference `XXH64_round`. -/
def XXH64_round (acc lane : Nat) : Nat :=
  (rotl64 ((acc + lane * PRIME64_2) % M64) 31 * PRIME64_1) % M64

/-- Accumulator lanes as initialized by `XXH64_reset` (v4 uses the wrapping
subtraction `seed - PRIME64_1`). -/
def XXH64_initAcc (seed : Nat) : Lanes4 where
  v1 := (seed % M64 + PRIME64_1 + PRIME64_2) % M64
  v2 := (seed % M64 + PRIME64_2) % M64
  v3 := seed % M64
  v4 := (seed % M64 + (M64 - PRIME64_1)) % M64

/-- One 32-byte stripe: each lane absorbs its 8-byte little-endian word. -/
def XXH64_stripe (a : Lanes4) (s : List Nat) : Lanes4 where
  v1 := XXH64_round a.v1 (leVal (s.take 8))
  v2 := XXH64_round a.v2 (leVal ((s.drop 8).take 8))
  v3 := XXH64_round a.v3 (leVal ((s.drop 16).take 8))
  v4 := XXH64_round a.v4 (leVal ((s.drop 24).take 8))

/-- Reference `XXH64_mergeRound`. -/
def XXH64_mergeRound (h acc : Nat) : Nat :=
  ((h ^^^ XXH64_round 0 acc) * PRIME64_1 + PRIME64_4) % M64

/-- Converging the four lanes after the stripe loop (rotations 1/7/12/18,
then one merge round per lane). -/
def XXH64_mergeAccs (a : Lanes4) : Nat :=
  let h := (rotl64 a.v1 1 + rotl64 a.v2 7 + rotl64 a.v3 12 + rotl64 a.v4 18) % M64
  XXH64_mergeRound (XXH64_mergeRound (XXH64_mergeRound (XXH64_mergeRound h a.v1) a.v2) a.v3) a.v4

/-- Reference `XXH64_avalanche` (xor-shift 33, `* PRIME64_2`, xor-shift 29,
`* PRIME64_3`, xor-shift 32). -/
def XXH64_avalanche (h : Nat) : Nat :=
  let h1 := h ^^^ (h >>> 33)
  let h2 := (h1 * PRIME64_2) % M64
  let h3 := h2 ^^^ (h2 >>> 29)
  let h4 := (h3 * PRIME64_3) % M64
  h4 ^^^ (h4 >>> 32)

/-- One 8-byte step of `XXH64_finalize`. -/
def XXH64_tailStep8 (h : Nat) (c : List Nat) : Nat :=
  (rotl64 (h ^^^ XXH64_round 0 (leVal c)) 27 * PRIME64_1 + PRIME64_4) % M64

/-- One 1-byte step of `XXH64_finalize`. -/
def XXH64_tailStep1 (h b : Nat) : Nat :=
  (rotl64 (h ^^^ ((b * PRIME64_5) % M64)) 11 * PRIME64_1) % M64

/-- Reference `XXH64_finalize`: the sub-stripe tail is folded 8 bytes at a
time, then one optional 4-byte step, then byte by byte, ending in the
avalanche. -/
def XXH64_finalize (h : Nat) (t : List Nat) : Nat :=
  let p8 := foldChunks 8 XXH64_tailStep8 h t
  let p4 : Nat × List Nat :=
    if 4 ≤ p8.2.length then
      ((rotl64 (p8.1 ^^^ ((leVal (p8.2.take 4) * PRIME64_1) % M64)) 23 * PRIME64_2
          + PRIME64_3) % M64,
        p8.2.drop 4)
    else
      (p8.1, p8.2)
  XXH64_avalanche (p4.2.foldl XXH64_tailStep1 p4.1)

/-- One-shot `xxh64(input, seed)` (binding function `xxh64`, reference
`XXH64`). -/
def xxh64 (input : List Nat) (seed : Nat) : Nat :=
  if 32 ≤ input.length then
    let p := foldChunks 32 XXH64_stripe (XXH64_initAcc seed) input
    XXH64_finalize ((XXH64_mergeAccs p.1 + input.length) % M64) p.2
  else
    XXH64_finalize (((seed % M64 + PRIME64_5) % M64 + input.length) % M64) input

/-! ## XXH64 streaming state

Modelled from the spec: the reference `XXH64_state_t` holds the running total
length, the four accumulator lanes and a pending buffer of fewer than 32
bytes; `XXH64_update` folds every completed 32-byte stripe and keeps the
remainder pending, `XXH64_digest` finalizes without touching the state. -/

structure XXH64State where
  totalLen : Nat
  acc : Lanes4
  buffer : List Nat
deriving DecidableEq

/-- Reference `XXH64_reset(state, seed)`: the state is rebuilt from the seed
alone. -/
def XXH64_reset (seed : Nat) : XXH64State where
  totalLen := 0
  acc := XXH64_initAcc seed
  buffer := []

/-- Binding `XXH64::reset(&mut self, seed)`: the C reset overwrites the whole
state, discarding whatever was accumulated before. -/
def XXH64_resetOn (_ : XXH64State) (seed : Nat) : XXH64State := XXH64_reset seed

/-- Binding `Hasher::write` for `XXH64` (reference `XXH64_update`): the input
is appended to the pending buffer, every completed 32-byte stripe is folded
into the lanes, and the sub-stripe remainder stays pending. -/
def XXH64_update (st : XXH64State) (input : List Nat) : XXH64State :=
  let p := foldChunks 32 XXH64_stripe st.acc (st.buffer ++ input)
  { totalLen := st.totalLen + input.length, acc := p.1, buffer := p.2 }

/-- Reference `XXH64_digest(state)`: a pure function of the state. -/
def XXH64_digest (st : XXH64State) : Nat :=
  if 32 ≤ st.totalLen then
    XXH64_finalize ((XXH64_mergeAccs st.acc + st.totalLen) % M64) st.buffer
  else
    XXH64_finalize (((st.acc.v3 + PRIME64_5) % M64 + st.totalLen) % M64) st.buffer

/-- Binding `Hasher::finish(&self)` for `XXH64`: it only reads the state, so
its observable effect is the digest paired with the untouched state. -/
def XXH64_finish (st : XXH64State) : Nat × XXH64State := (XXH64_digest st, st)

/-- A sequence of `write` calls. -/
def XXH64_writeMany (st : XXH64State) (chunks : List (List Nat)) : XXH64State :=
  chunks.foldl XXH64_update st

/-- Binding `XXH64::uninit()`: memory that no reset has initialized. -/
def XXH64_uninit : Option XXH64State := none

/-- Binding reset seen at the `MaybeUninit` layer: defined regardless of
whether the state was initialized. -/
def XXH64_resetOpt (_ : Option XXH64State) (seed : Nat) : Option XXH64State :=
  some (XXH64_reset seed)

/-- Binding `XXH64::new(seed)`: `uninit()` followed by `reset(seed)`. -/
def XXH64_new (seed : Nat) : Option XXH64State := XXH64_resetOpt XXH64_uninit seed

/-- Binding `impl Default for XXH64`: `Self::new(0)`. -/
def XXH64_default : Option XXH64State := XXH64_new 0

/-! ## XXH32 core

Modelled from the spec: the binding's `xxh32` delegates to the reference
`XXH32`, reproduced here (16-byte stripes of four 32-bit lanes, rotation 13,
tail steps of 4 bytes and 1 byte, avalanche 15/13/16). -/

def PRIME32_1 : Nat := 0x9E3779B1

def PRIME32_2 : Nat := 0x85EBCA77

def PRIME32_3 : Nat := 0xC2B2AE3D

def PRIME32_4 : Nat := 0x27D4EB2F

def PRIME32_5 : Nat := 0x165667B1

/-- Reference `XXH32_round`. -/
def XXH32_round (acc lane : Nat) : Nat :=
  (rotl32 ((acc + lane * PRIME32_2) % M32) 13 * PRIME32_1) % M32

def XXH32_initAcc (seed : Nat) : Lanes4 where
  v1 := (seed % M32 + PRIME32_1 + PRIME32_2) % M32
  v2 := (seed % M32 + PRIME32_2) % M32
  v3 := seed % M32
  v4 := (seed % M32 + (M32 - PRIME32_1)) % M32

/-- One 16-byte stripe: each lane absorbs its 4-byte little-endian word. -/
def XXH32_stripe (a : Lanes4) (s : List Nat) : Lanes4 where
  v1 := XXH32_round a.v1 (leVal (s.take 4))
  v2 := XXH32_round a.v2 (leVal ((s.drop 4).take 4))
  v3 := XXH32_round a.v3 (leVal ((s.drop 8).take 4))
  v4 := XXH32_round a.v4 (leVal ((s.drop 12).take 4))

/-- Reference `XXH32_avalanche`. -/
def XXH32_avalanche (h : Nat) : Nat :=
  let h1 := h ^^^ (h >>> 15)
  let h2 := (h1 * PRIME32_2) % M32
  let h3 := h2 ^^^ (h2 >>> 13)
  let h4 := (h3 * PRIME32_3) % M32
  h4 ^^^ (h4 >>> 16)

/-- One 4-byte step of `XXH32_finalize`. -/
def XXH32_tailStep4 (h : Nat) (c : List Nat) : Nat :=
  (rotl32 ((h + leVal c * PRIME32_3) % M32) 17 * PRIME32_4) % M32

/-- One 1-byte step of `XXH32_finalize`. -/
def XXH32_tailStep1 (h b : Nat) : Nat :=
  (rotl32 ((h + b * PRIME32_5) % M32) 11 * PRIME32_1) % M32

/-- Reference `XXH32_finalize`. -/
def XXH32_finalize (h : Nat) (t : List Nat) : Nat :=
  let p4 := foldChunks 4 XXH32_tailStep4 h t
  XXH32_avalanche (p4.2.foldl XXH32_tailStep1 p4.1)

/-- One-shot `xxh32(input, seed)` (binding function `xxh32`, reference
`XXH32`). -/
def xxh32 (input : List Nat) (seed : Nat) : Nat :=
  if 16 ≤ input.length then
    let p := foldChunks 16 XXH32_stripe (XXH32_initAcc seed) input
    XXH32_finalize
      ((rotl32 p.1.v1 1 + rotl32 p.1.v2 7 + rotl32 p.1.v3 12 + rotl32 p.1.v4 18
          + input.length) % M32) p.2
  else
    XXH32_finalize ((seed % M32 + PRIME32_5 + input.length) % M32) input

/-! ## XXH64 streaming agrees with the one-shot hash -/

/-- Two consecutive writes are one write of the concatenation. -/
theorem XXH64_update_append (st : XXH64State) (a b : List Nat) :
    XXH64_update (XXH64_update st a) b = XXH64_update st (a ++ b) := by
  unfold XXH64_update
  simp only [List.length_append, ← List.append_assoc]
  rw [foldChunks_append 32 XXH64_stripe st.acc (st.buffer ++ a) b]
  simp [Nat.add_assoc]

/-- A whole write sequence after a first write is one write of the flattened
bytes. -/
theorem XXH64_writeMany_cons_flatten :
    ∀ (chunks : List (List Nat)) (st : XXH64State) (c : List Nat),
      XXH64_writeMany (XXH64_update st c) chunks =
        XXH64_update st (c ++ chunks.flatten) := by
  intro chunks
  induction chunks with
  | nil =>
    intro st c
    simp [XXH64_writeMany]
  | cons d ds ih =>
    intro st c
    show XXH64_writeMany (XXH64_update (XXH64_update st c) d) ds = _
    rw [XXH64_update_append, ih, List.flatten_cons, ← List.append_assoc]

/-- Digesting after one write on a fresh state is the one-shot hash. -/
theorem XXH64_digest_update_reset (input : List Nat) (seed : Nat) :
    XXH64_digest (XXH64_update (XXH64_reset seed) input) = xxh64 input seed := by
  unfold XXH64_digest XXH64_update XXH64_reset xxh64
  simp only [List.nil_append, Nat.zero_add]
  by_cases h : 32 ≤ input.length
  · rw [if_pos h, if_pos h]
  · rw [if_neg h, if_neg h]
    rw [foldChunks_of_lt 32 XXH64_stripe (XXH64_initAcc seed) input (by omega)]
    simp [XXH64_initAcc]

/-- A fresh state with nothing written digests to the hash of the empty
input. -/
theorem XXH64_digest_reset (seed : Nat) :
    XXH64_digest (XXH64_reset seed) = xxh64 [] seed := by
  have hupd : XXH64_update (XXH64_reset seed) [] = XXH64_reset seed := by
    unfold XXH64_update XXH64_reset
    simp [foldChunks_nil]
  rw [← hupd, XXH64_digest_update_reset]

/-- Chunking invariance for the XXH64 streaming state: any write sequence on
a fresh state digests to the one-shot hash of the flattened bytes. -/
theorem XXH64_stream_eq_oneshot (seed : Nat) (chunks : List (List Nat)) :
    XXH64_digest (XXH64_writeMany (XXH64_reset seed) chunks) =
      xxh64 chunks.flatten seed := by
  cases chunks with
  | nil =>
    simpa using XXH64_digest_reset seed
  | cons c cs =>
    show XXH64_digest (XXH64_writeMany (XXH64_update (XXH64_reset seed) c) cs) = _
    rw [XXH64_writeMany_cons_flatten, XXH64_digest_update_reset, List.flatten_cons]

/-! ## XXH3 (64/128-bit extended algorithm)

Modelled from the spec: the whole XXH3 mixing core lives in the external C
xxHash library, not in this repository, and the spec does not reproduce its
constants; it does fix the shape of the machine (sections 3, 4.3, 4.4):
accumulator lanes, a pending tail strictly shorter than one stripe, a running
total length, and customization constants derived from the active reset
policy (built-in table for Default, a key schedule of the seed for Seeded,
the caller's bytes verbatim for SecretBytes).  The machine below is therefore
parameterized over the mixing core (`Xxh3Alg`); every theorem about it holds
for each instantiation, in particular for the reference one. -/

/-- Signature of the XXH3 mixing core.  `fold` absorbs one full stripe under
the active secret; `final` maps (secret, accumulator, pending tail, total
length) to the 64-bit digest; `final128hi` is the high half used by the
128-bit variant; `deriveSecret` is the documented key schedule applied to the
built-in table. -/
structure Xxh3Alg where
  stripe : Nat
  stripePos : 0 < stripe
  initAcc : List Nat
  defaultSecret : List Nat
  deriveSecret : Nat → List Nat
  fold : List Nat → List Nat → List Nat → List Nat
  final : List Nat → List Nat → List Nat → Nat → Nat
  final128hi : List Nat → List Nat → List Nat → Nat → Nat

/-- The three reset policies of the binding (`Xxh3DefaultReset`, `u64`,
`&[u8]` in `src/lib.rs`). -/
inductive Xxh3Policy where
  | Xxh3DefaultReset : Xxh3Policy
  | seed (s : Nat) : Xxh3Policy
  | secret (bytes : List Nat) : Xxh3Policy
deriving DecidableEq

/-- Customization material selected by a policy.  Modelled from the spec and
the reference algorithm: the reference `XXH3_64bits_reset_withSeed` treats
seed `0` as the default reset (the repository test `try_reset_policies`
asserts exactly this digest equality), so seed `0` selects the built-in
table. -/
def Xxh3Policy.secretOf (A : Xxh3Alg) : Xxh3Policy → List Nat
  | .Xxh3DefaultReset => A.defaultSecret
  | .seed s => if s = 0 then A.defaultSecret else A.deriveSecret s
  | .secret bytes => bytes

/-- The XXH3 streaming state of the spec: lanes, pending tail, total length,
active secret. -/
structure XXH3State where
  acc : List Nat
  buffer : List Nat
  totalLen : Nat
  secret : List Nat
deriving DecidableEq

/-- `construct(policy)`: customization per policy, zeroed lanes and pending
buffer. -/
def XXH3_construct (A : Xxh3Alg) (p : Xxh3Policy) : XXH3State where
  acc := A.initAcc
  buffer := []
  totalLen := 0
  secret := p.secretOf A

/-- Binding `Hasher::write` for `XXH3_64` (reference `XXH3_64bits_update`):
append to the pending tail, fold every completed stripe, keep the sub-stripe
remainder. -/
def XXH3_update (A : Xxh3Alg) (st : XXH3State) (input : List Nat) : XXH3State :=
  let p := foldChunks A.stripe (A.fold st.secret) st.acc (st.buffer ++ input)
  { acc := p.1, buffer := p.2, totalLen := st.totalLen + input.length,
    secret := st.secret }

/-- Reference `XXH3_64bits_digest(state)`: a pure function of the state. -/
def XXH3_digest (A : Xxh3Alg) (st : XXH3State) : Nat :=
  A.final st.secret st.acc st.buffer st.totalLen

/-- Binding `Hasher::finish(&self)` for `XXH3_64`. -/
def XXH3_finish (A : Xxh3Alg) (st : XXH3State) : Nat × XXH3State :=
  (XXH3_digest A st, st)

/-- One-shot XXH3 under a policy: one pass of stripe folding over the whole
buffer, then finalization of the remainder. -/
def XXH3_oneshot (A : Xxh3Alg) (p : Xxh3Policy) (input : List Nat) : Nat :=
  let s := p.secretOf A
  let q := foldChunks A.stripe (A.fold s) A.initAcc input
  A.final s q.1 q.2 input.length

/-- Binding `xxh3_64(input)` (reference `XXH3_64bits`): the default-policy
one-shot hash. -/
def xxh3_64 (A : Xxh3Alg) (input : List Nat) : Nat :=
  XXH3_oneshot A .Xxh3DefaultReset input

/-- A sequence of `write` calls. -/
def XXH3_writeMany (A : Xxh3Alg) (st : XXH3State) (chunks : List (List Nat)) :
    XXH3State :=
  chunks.foldl (XXH3_update A) st

/-! ### Reset dispatch of the binding -/

/-- Error codes of the C library. -/
inductive XXH_errorcode where
  | XXH_OK : XXH_errorcode
  | XXH_ERROR : XXH_errorcode
deriving DecidableEq

/-- `xxhash_c_sys::XXH3_SECRET_SIZE_MIN`, the publicly documented minimum
secret length of the reference algorithm. -/
def XXH3_SECRET_SIZE_MIN : Nat := 192

/-- Reference `XXH3_64bits_reset`: rebuild the state for the default policy,
discarding previous contents. -/
def XXH3_64bits_reset (A : Xxh3Alg) (_ : XXH3State) : XXH3State :=
  XXH3_construct A .Xxh3DefaultReset

/-- Reference `XXH3_64bits_reset_withSeed`: rebuild for the seed policy
(seed `0` selects the built-in table, see `Xxh3Policy.secretOf`). -/
def XXH3_64bits_reset_withSeed (A : Xxh3Alg) (_ : XXH3State) (s : Nat) :
    XXH3State :=
  XXH3_construct A (.seed s)

/-- Reference `XXH3_64bits_reset_withSecret`: the state is rebuilt for the
caller's secret, and the returned code reports a configuration error whenever
the secret is shorter than `XXH3_SECRET_SIZE_MIN`. -/
def XXH3_64bits_reset_withSecret (A : Xxh3Alg) (_ : XXH3State)
    (secret : List Nat) : XXH_errorcode × XXH3State :=
  (if secret.length < XXH3_SECRET_SIZE_MIN then .XXH_ERROR else .XXH_OK,
    XXH3_construct A (.secret secret))

/-- Binding `impl Xxh3Reset for Xxh3DefaultReset` (`src/lib.rs:131`). -/
def Xxh3Reset_default (A : Xxh3Alg) (st : XXH3State) : XXH3State :=
  XXH3_64bits_reset A st

/-- Binding `impl Xxh3Reset for u64` (`src/lib.rs:138`). -/
def Xxh3Reset_u64 (A : Xxh3Alg) (st : XXH3State) (s : Nat) : XXH3State :=
  XXH3_64bits_reset_withSeed A st s

/-- Binding `impl Xxh3Reset for &[u8]` (`src/lib.rs:145`): the `debug_assert`
on the secret length and on the returned `XXH_errorcode` are compiled out of
release builds, so the only caller-visible outcome is the second component —
the state — with the error code discarded. -/
def Xxh3Reset_secret (A : Xxh3Alg) (st : XXH3State) (secret : List Nat) :
    XXH3State :=
  (XXH3_64bits_reset_withSecret A st secret).2

/-- Binding `XXH3_64::reset::<R>` — the type-directed dispatch over the three
`Xxh3Reset` impls. -/
def XXH3_reset (A : Xxh3Alg) (st : XXH3State) : Xxh3Policy → XXH3State
  | .Xxh3DefaultReset => Xxh3Reset_default A st
  | .seed s => Xxh3Reset_u64 A st s
  | .secret b => Xxh3Reset_secret A st b

/-- Binding `XXH3_64::uninit()`: memory no reset has initialized. -/
def XXH3_uninit : Option XXH3State := none

/-- Binding reset at the `MaybeUninit` layer: defined regardless of whether
the state was initialized, since the C reset never reads the old contents. -/
def XXH3_resetOpt (A : Xxh3Alg) (_ : Option XXH3State) (p : Xxh3Policy) :
    Option XXH3State :=
  some (XXH3_reset A (XXH3_construct A .Xxh3DefaultReset) p)

/-- Binding `XXH3_64::new()`: `uninit()` followed by
`reset(Xxh3DefaultReset)`. -/
def XXH3_new (A : Xxh3Alg) : Option XXH3State :=
  XXH3_resetOpt A XXH3_uninit .Xxh3DefaultReset

/-! ### XXH3 streaming agrees with the one-shot hash -/

theorem XXH3_update_append (A : Xxh3Alg) (st : XXH3State) (a b : List Nat) :
    XXH3_update A (XXH3_update A st a) b = XXH3_update A st (a ++ b) := by
  unfold XXH3_update
  simp only [List.length_append, ← List.append_assoc]
  rw [foldChunks_append A.stripe (A.fold st.secret) st.acc (st.buffer ++ a) b]
  simp [Nat.add_assoc]

theorem XXH3_writeMany_cons_flatten (A : Xxh3Alg) :
    ∀ (chunks : List (List Nat)) (st : XXH3State) (c : List Nat),
      XXH3_writeMany A (XXH3_update A st c) chunks =
        XXH3_update A st (c ++ chunks.flatten) := by
  intro chunks
  induction chunks with
  | nil =>
    intro st c
    simp [XXH3_writeMany]
  | cons d ds ih =>
    intro st c
    show XXH3_writeMany A (XXH3_update A (XXH3_update A st c) d) ds = _
    rw [XXH3_update_append, ih, List.flatten_cons, ← List.append_assoc]

theorem XXH3_digest_update_construct (A : Xxh3Alg) (p : Xxh3Policy)
    (input : List Nat) :
    XXH3_digest A (XXH3_update A (XXH3_construct A p) input) =
      XXH3_oneshot A p input := by
  unfold XXH3_digest XXH3_update XXH3_construct XXH3_oneshot
  simp

theorem XXH3_digest_construct (A : Xxh3Alg) (p : Xxh3Policy) :
    XXH3_digest A (XXH3_construct A p) = XXH3_oneshot A p [] := by
  have hupd : XXH3_update A (XXH3_construct A p) [] = XXH3_construct A p := by
    unfold XXH3_update XXH3_construct
    simp [foldChunks_nil]
  rw [← hupd, XXH3_digest_update_construct]

/-- Chunking invariance for the XXH3 streaming state. -/
theorem XXH3_stream_eq_oneshot (A : Xxh3Alg) (p : Xxh3Policy)
    (chunks : List (List Nat)) :
    XXH3_digest A (XXH3_writeMany A (XXH3_construct A p) chunks) =
      XXH3_oneshot A p chunks.flatten := by
  cases chunks with
  | nil =>
    simpa using XXH3_digest_construct A p
  | cons c cs =>
    show XXH3_digest A
        (XXH3_writeMany A (XXH3_update A (XXH3_construct A p) c) cs) = _
    rw [XXH3_writeMany_cons_flatten, XXH3_digest_update_construct,
      List.flatten_cons]

/-! ### The 128-bit variant and the binding's combination of its halves -/

/-- The C result type `XXH128_hash_t`: two 64-bit halves. -/
structure XXH128_hash_t where
  low64 : Nat
  high64 : Nat
deriving DecidableEq

/-- Reference `XXH3_128bits`: the 64-bit C return type of each half is
modelled by reducing the core's two outputs `% 2 ^ 64`. -/
def XXH3_128bits (A : Xxh3Alg) (input : List Nat) : XXH128_hash_t :=
  let s := Xxh3Policy.secretOf A .Xxh3DefaultReset
  let q := foldChunks A.stripe (A.fold s) A.initAcc input
  { low64 := A.final s q.1 q.2 input.length % M64
    high64 := A.final128hi s q.1 q.2 input.length % M64 }

/-- Binding `xxh3_128(input)` (`src/lib.rs:45`):
`(result.high64 as u128) << 64 | result.low64 as u128`. -/
def xxh3_128 (A : Xxh3Alg) (input : List Nat) : Nat :=
  ((XXH3_128bits A input).high64 <<< 64) ||| (XXH3_128bits A input).low64

/-- Shifting a value left by 64 and or-ing in a 64-bit value is exactly the
place-value combination `high * 2 ^ 64 + low`. -/
theorem shiftLeft_or_eq_add (a b : Nat) (hb : b < 2 ^ 64) :
    (a <<< 64) ||| b = a * 2 ^ 64 + b := by
  rw [Nat.shiftLeft_eq, Nat.mul_comm a (2 ^ 64)]
  exact (Nat.mul_add_lt_is_or hb a).symm

/-! ### A concrete instantiation of the XXH3 signature

`xxh3Toy` is a small executable instance of `Xxh3Alg`, used only to evaluate
the generic theorems on concrete data (closed counterexamples and witnesses);
nothing about the claims depends on its particular mixing functions. -/

def xxh3Toy : Xxh3Alg where
  stripe := 64
  stripePos := by decide
  initAcc := List.replicate 8 0
  defaultSecret := (List.range 192).map (fun i => i % 256)
  deriveSecret := fun s => (List.range 192).map (fun i => (i + s) % 256)
  fold := fun sec acc chunk =>
    acc.map (fun v => (v * 31 + leVal chunk + leVal (sec.take 8) + 1) % M64)
  final := fun sec acc tail n =>
    (acc.foldl (fun x y => (x * 33 + y) % M64) 7 + leVal tail + n
      + leVal (sec.take 8)) % M64
  final128hi := fun sec acc tail n =>
    (acc.foldl (fun x y => (x * 5 + y) % M64) 11 + leVal tail + 3 * n
      + sec.length) % M64

/-! ## Publicly constructible binding states (for the uninit/new analysis) -/

/-- States of the binding's `XXH64` type reachable through its public
constructors: `uninit()`, `new(seed)`, `Default::default()`, and
`reset(&mut self, seed)` on an already obtained value. -/
inductive XXH64_publiclyConstructible : Option XXH64State → Prop where
  | uninit : XXH64_publiclyConstructible XXH64_uninit
  | new (seed : Nat) : XXH64_publiclyConstructible (XXH64_new seed)
  | dflt : XXH64_publiclyConstructible XXH64_default
  | reset (st : Option XXH64State) (seed : Nat) :
      XXH64_publiclyConstructible st →
      XXH64_publiclyConstructible (XXH64_resetOpt st seed)

/-- States of the binding's `XXH3_64` type reachable through its public
constructors: `uninit()`, `new()`, `Default::default()`, and
`reset(&mut self, policy)`. -/
inductive XXH3_publiclyConstructible : Option XXH3State → Prop where
  | uninit : XXH3_publiclyConstructible XXH3_uninit
  | new (A : Xxh3Alg) : XXH3_publiclyConstructible (XXH3_new A)
  | reset (A : Xxh3Alg) (st : Option XXH3State) (p : Xxh3Policy) :
      XXH3_publiclyConstructible st →
      XXH3_publiclyConstructible (XXH3_resetOpt A st p)

/-! ## The claims -/

/-- C1: chunking invariance — for every split of a byte sequence into chunks,
writing the chunks to a freshly constructed streaming hasher (XXH64 under any
seed, XXH3 under any reset policy and any mixing core) and finishing returns
the one-shot hash of the concatenation; in particular writing `"lo"` then
`"li"` to a fresh XXH64 with seed 0 finishes to `xxh64("loli", 0)`, which is
non-zero. -/
theorem claim_C1_chunking_invariance :
    (∀ (seed : Nat) (chunks : List (List Nat)),
        XXH64_digest (XXH64_writeMany (XXH64_reset seed) chunks) =
          xxh64 chunks.flatten seed) ∧
    (∀ (A : Xxh3Alg) (p : Xxh3Policy) (chunks : List (List Nat)),
        XXH3_digest A (XXH3_writeMany A (XXH3_construct A p) chunks) =
          XXH3_oneshot A p chunks.flatten) ∧
    XXH64_digest (XXH64_update (XXH64_update (XXH64_reset 0) [108, 111]) [108, 105]) =
      xxh64 [108, 111, 108, 105] 0 ∧
    xxh64 [108, 111, 108, 105] 0 ≠ 0 := by
  refine ⟨XXH64_stream_eq_oneshot, XXH3_stream_eq_oneshot, ?_, ?_⟩
  · decide
  · decide

/-- C2: the claim demands that a secret shorter than
`XXH3_SECRET_SIZE_MIN = 192` produce a recoverable configuration error
reported to the caller.  Evaluating the code at the failing input (the empty
secret): the C layer does report `XXH_ERROR`, but the binding's
`impl Xxh3Reset for &[u8]` discards the code (its `debug_assert` checks are
compiled out of release builds) and hands the caller a plain state, so no
error ever reaches the caller. -/
theorem claim_C2_short_secret_error_swallowed :
    XXH3_SECRET_SIZE_MIN = 192 ∧
    (XXH3_64bits_reset_withSecret xxh3Toy
        (XXH3_construct xxh3Toy .Xxh3DefaultReset) []).1 =
      XXH_errorcode.XXH_ERROR ∧
    Xxh3Reset_secret xxh3Toy (XXH3_construct xxh3Toy .Xxh3DefaultReset) [] =
      XXH3_construct xxh3Toy (.secret []) := by
  refine ⟨rfl, ?_, rfl⟩
  decide

/-- C3: `finish` mutates nothing — its second (state) component is the input
state, repeated calls return the same digest, and the digest always equals
the one-shot hash of exactly the bytes written since the last reset, at any
point of any write sequence. -/
theorem claim_C3_finish_is_pure :
    (∀ st : XXH64State, (XXH64_finish st).2 = st ∧
        (XXH64_finish (XXH64_finish st).2).1 = (XXH64_finish st).1) ∧
    (∀ (A : Xxh3Alg) (st : XXH3State), (XXH3_finish A st).2 = st ∧
        (XXH3_finish A (XXH3_finish A st).2).1 = (XXH3_finish A st).1) ∧
    (∀ (seed : Nat) (chunks : List (List Nat)),
        (XXH64_finish (XXH64_writeMany (XXH64_reset seed) chunks)).1 =
          xxh64 chunks.flatten seed) ∧
    (∀ (A : Xxh3Alg) (p : Xxh3Policy) (chunks : List (List Nat)),
        (XXH3_finish A (XXH3_writeMany A (XXH3_construct A p) chunks)).1 =
          XXH3_oneshot A p chunks.flatten) :=
  ⟨fun _ => ⟨rfl, rfl⟩, fun _ _ => ⟨rfl, rfl⟩,
    XXH64_stream_eq_oneshot, XXH3_stream_eq_oneshot⟩

/-- C4: determinism — every hashing operation of the binding (one-shot
`xxh32`/`xxh64`/`xxh3_64`/`xxh3_128` and the streaming
construct/write/finish sequences) is a pure function of its input and
policy, so two invocations on identical arguments give identical digests. -/
theorem claim_C4_determinism :
    (∀ (input : List Nat) (seed : Nat), xxh32 input seed = xxh32 input seed) ∧
    (∀ (input : List Nat) (seed : Nat), xxh64 input seed = xxh64 input seed) ∧
    (∀ (A : Xxh3Alg) (input : List Nat), xxh3_64 A input = xxh3_64 A input) ∧
    (∀ (A : Xxh3Alg) (input : List Nat), xxh3_128 A input = xxh3_128 A input) ∧
    (∀ (seed : Nat) (chunks : List (List Nat)),
        XXH64_digest (XXH64_writeMany (XXH64_reset seed) chunks) =
          XXH64_digest (XXH64_writeMany (XXH64_reset seed) chunks)) ∧
    (∀ (A : Xxh3Alg) (p : Xxh3Policy) (chunks : List (List Nat)),
        XXH3_digest A (XXH3_writeMany A (XXH3_construct A p) chunks) =
          XXH3_digest A (XXH3_writeMany A (XXH3_construct A p) chunks)) :=
  ⟨fun _ _ => rfl, fun _ _ => rfl, fun _ _ => rfl, fun _ _ => rfl,
    fun _ _ => rfl, fun _ _ _ => rfl⟩

/-- C5: totality — hashing is defined for every length including zero; the
zero-length digests are the published reference test-vector values
(`0x02CC5D05` for XXH32, `0xEF46DB3751D8E999` for XXH64, both at seed 0),
and a freshly constructed streaming state finishes to the one-shot hash of
the empty input for every seed and policy. -/
theorem claim_C5_totality_zero_length :
    xxh32 [] 0 = 0x02CC5D05 ∧
    xxh64 [] 0 = 0xEF46DB3751D8E999 ∧
    (∀ seed : Nat, XXH64_digest (XXH64_reset seed) = xxh64 [] seed) ∧
    (∀ (A : Xxh3Alg) (p : Xxh3Policy),
        XXH3_digest A (XXH3_construct A p) = XXH3_oneshot A p []) := by
  refine ⟨by decide, by decide, XXH64_digest_reset, XXH3_digest_construct⟩

/-- C6: resettability — resetting an arbitrarily used state and then writing
any byte sequence digests exactly as a freshly constructed state with the
same seed/policy would; the reset discards all prior accumulation. -/
theorem claim_C6_reset_equals_fresh :
    (∀ (st : XXH64State) (seed : Nat) (chunks : List (List Nat)),
        XXH64_digest (XXH64_writeMany (XXH64_resetOn st seed) chunks) =
          XXH64_digest (XXH64_writeMany (XXH64_reset seed) chunks)) ∧
    (∀ (A : Xxh3Alg) (st : XXH3State) (p : Xxh3Policy) (chunks : List (List Nat)),
        XXH3_digest A (XXH3_writeMany A (XXH3_reset A st p) chunks) =
          XXH3_digest A (XXH3_writeMany A (XXH3_construct A p) chunks)) := by
  constructor
  · intro st seed chunks
    rfl
  · intro A st p chunks
    cases p <;> rfl

/-- C7 counterexample: the claim "every streaming state that exists is fully
initialized and valid to write/finish; there is no reachable
exists-but-unusable state at the public interface" is false for this code:
`XXH64::uninit()` / `XXH3_64::uninit()` are public (`pub const unsafe fn`)
and produce a state that exists but is not initialized (`isSome = false`). -/
theorem claim_C7_counterexample :
    (XXH64_publiclyConstructible XXH64_uninit ∧ XXH64_uninit.isSome = false) ∧
    (XXH3_publiclyConstructible XXH3_uninit ∧ XXH3_uninit.isSome = false) :=
  ⟨⟨.uninit, rfl⟩, ⟨.uninit, rfl⟩⟩

/-- C7 amended: every state produced by the safe constructors —
`XXH64::new`, `Default::default`, `XXH3_64::new` — or by any `reset` is fully
initialized and Ready; only the `unsafe`-marked public `uninit()` constructor
exposes an uninitialized state, and it becomes Ready exactly through
`reset`. -/
theorem claim_C7_safe_construction_ready :
    (∀ seed : Nat, (XXH64_new seed).isSome = true) ∧
    XXH64_default.isSome = true ∧
    (∀ (st : Option XXH64State) (seed : Nat),
        (XXH64_resetOpt st seed).isSome = true) ∧
    (∀ A : Xxh3Alg, (XXH3_new A).isSome = true) ∧
    (∀ (A : Xxh3Alg) (st : Option XXH3State) (p : Xxh3Policy),
        (XXH3_resetOpt A st p).isSome = true) ∧
    (∀ seed : Nat, XXH64_new seed = XXH64_resetOpt XXH64_uninit seed) :=
  ⟨fun _ => rfl, rfl, fun _ _ => rfl, fun _ => rfl, fun _ _ _ => rfl,
    fun _ => rfl⟩

/-- C8: seed sensitivity — for input `"loli"` the one-shot 64-bit hashes
under seed 0 and seed 5 are the distinct values `0x53FC7827605CA776` and
`0xEDDE92D5469E92BF`. -/
theorem claim_C8_seed_sensitivity :
    xxh64 [108, 111, 108, 105] 0 = 0x53FC7827605CA776 ∧
    xxh64 [108, 111, 108, 105] 5 = 0xEDDE92D5469E92BF ∧
    xxh64 [108, 111, 108, 105] 0 ≠ xxh64 [108, 111, 108, 105] 5 := by
  refine ⟨by decide, by decide, by decide⟩

/-- C9: the 128-bit result is the pair of 64-bit halves combined in the fixed
word order `(high64 << 64) | low64`, i.e. place-value `high * 2^64 + low`;
the halves are recoverable by division and remainder and the value fits in
128 bits. -/
theorem claim_C9_128_combination (A : Xxh3Alg) (input : List Nat) :
    xxh3_128 A input =
      (XXH3_128bits A input).high64 * 2 ^ 64 + (XXH3_128bits A input).low64 ∧
    xxh3_128 A input / 2 ^ 64 = (XXH3_128bits A input).high64 ∧
    xxh3_128 A input % 2 ^ 64 = (XXH3_128bits A input).low64 ∧
    xxh3_128 A input < 2 ^ 128 := by
  have hlo : (XXH3_128bits A input).low64 < 2 ^ 64 := by
    show _ % M64 < 2 ^ 64
    exact Nat.mod_lt _ (by decide)
  have hhi : (XXH3_128bits A input).high64 < 2 ^ 64 := by
    show _ % M64 < 2 ^ 64
    exact Nat.mod_lt _ (by decide)
  have hcomb : xxh3_128 A input =
      (XXH3_128bits A input).high64 * 2 ^ 64 + (XXH3_128bits A input).low64 :=
    shiftLeft_or_eq_add _ _ hlo
  refine ⟨hcomb, ?_, ?_, ?_⟩
  · rw [hcomb]
    omega
  · rw [hcomb]
    omega
  · rw [hcomb]
    omega

/-- C10: for the XXH3 streaming hasher, `reset(0u64)` is digest-equivalent to
the default reset policy — indeed the two resets produce equal states — so
any byte sequence written after either digests identically. -/
theorem claim_C10_seed_zero_default :
    (∀ (A : Xxh3Alg) (st : XXH3State) (chunks : List (List Nat)),
        XXH3_digest A (XXH3_writeMany A (XXH3_reset A st (.seed 0)) chunks) =
          XXH3_digest A (XXH3_writeMany A (XXH3_construct A .Xxh3DefaultReset) chunks)) ∧
    (∀ (A : Xxh3Alg) (st : XXH3State),
        XXH3_reset A st (.seed 0) = XXH3_64bits_reset A st) := by
  have hstate : ∀ (A : Xxh3Alg) (st : XXH3State),
      XXH3_reset A st (.seed 0) = XXH3_construct A .Xxh3DefaultReset := by
    intro A st
    show XXH3_construct A (.seed 0) = XXH3_construct A .Xxh3DefaultReset
    simp [XXH3_construct, Xxh3Policy.secretOf]
  constructor
  · intro A st chunks
    rw [hstate]
  · intro A st
    exact hstate A st

end Xxh
